import Mathlib

/-
Shallow embedding of src/main.py (Docker Hub repository tag / manifest /
cosign-signature info tool).

The program is a sequential HTTP client: acquire a bearer token, fetch the
tag list, then for each non-signature tag fetch its manifest and check
whether a cosign signature tag for its content digest exists in the tag
list.  We model decoded JSON values as an inductive type, the HTTP
transport as an input assigning a response (status, decoded body, headers)
or transport error to each URL, and `exit(1)` together with uncaught
Python exceptions as explicit result constructors.  Logging text is not
modelled; the values that would be logged (tag counts, shown tag slices,
per-tag manifest results, the Signed! flag) are returned explicitly.
-/

/-- Python exceptions that can escape the error handling of main.py.
The source catches only json.JSONDecodeError and
requests.exceptions.RequestException, so TypeError and KeyError propagate. -/
inductive PyExc where
  | typeError
  | keyError

/-- Result of running a piece of Python code: a value, or an uncaught
exception. -/
inductive PyResult (α : Type) where
  | ok (a : α)
  | exc (e : PyExc)

/-- A decoded JSON value, plus `hdrs` for the response-headers object that
line 104 of main.py stores into the decoded dict
(`json_data['headers'] = response.headers`); in Python that is a
CaseInsensitiveDict of strings, not JSON.  JSON numbers are modelled as
integers (no claim involves fractional numbers). -/
inductive Json where
  | null
  | bool (b : Bool)
  | num (n : Int)
  | str (s : String)
  | arr (elems : List Json)
  | obj (fields : List (String × Json))
  | hdrs (h : List (String × String))

/-- Python dict membership `k in d` for a string-keyed dict modelled as an
association list (first occurrence wins, as in a real dict where keys are
unique). -/
def hasKey : List (String × Json) → String → Bool
  | [], _ => false
  | (k2, _) :: rest, k => k2 == k || hasKey rest k

/-- Python dict lookup `d[k]` (first occurrence). -/
def getKey : List (String × Json) → String → Option Json
  | [], _ => none
  | (k2, v) :: rest, k => if k2 == k then some v else getKey rest k

/-- Python dict assignment `d[k] = v`: overwrite in place when the key is
present, append otherwise. -/
def setKey : List (String × Json) → String → Json → List (String × Json)
  | [], k, v => [(k, v)]
  | (k2, v2) :: rest, k, v =>
    if k2 == k then (k, v) :: rest else (k2, v2) :: setKey rest k v

/-- Python dict deletion `del d[k]`. -/
def delKey : List (String × Json) → String → List (String × Json)
  | [], _ => []
  | (k2, v2) :: rest, k =>
    if k2 == k then delKey rest k else (k2, v2) :: delKey rest k

/-- ASCII lower-casing of one character, for the case-insensitive header
dict of the requests library. -/
def lowerAscii (c : Char) : Char :=
  if 'A' ≤ c && c ≤ 'Z' then Char.ofNat (c.toNat + 32) else c

/-- Case-insensitive equality of header names, as in
requests.structures.CaseInsensitiveDict. -/
def headerKeyEq (a b : String) : Bool :=
  a.toList.map lowerAscii == b.toList.map lowerAscii

/-- Lookup in the response-headers object; requests headers are
case-insensitive. -/
def headerLookup : List (String × String) → String → Option String
  | [], _ => none
  | (k2, v) :: rest, k => if headerKeyEq k2 k then some v else headerLookup rest k

/-- Python truthiness of the values our dicts can hold: empty containers,
empty strings, zero, None and False are falsy. -/
def Json.truthy : Json → Bool
  | .null => false
  | .bool b => b
  | .num n => !(n == 0)
  | .str s => !(s == "")
  | .arr xs => !xs.isEmpty
  | .obj fs => !fs.isEmpty
  | .hdrs h => !h.isEmpty

/-- Python str.startswith, on character lists. -/
def strStartsWith (s pre : String) : Bool :=
  pre.toList.isPrefixOf s.toList

/-- Python str.endswith, on character lists. -/
def strEndsWith (s suf : String) : Bool :=
  suf.toList.isSuffixOf s.toList

/-- Python str.strip(chars): remove the leading and trailing characters
that belong to the character SET of chars.  Note this is a set operation,
not removal of the literal substring chars. -/
def pyStrip (s : String) (chars : String) : String :=
  let cs := chars.toList
  let l := s.toList.dropWhile (fun c => cs.contains c)
  String.mk ((l.reverse.dropWhile (fun c => cs.contains c)).reverse)

mutual

/-- Python repr of a decoded-JSON value (string escaping inside container
reprs is not reproduced; no claim depends on it). -/
def pyRepr : Json → String
  | .null => "None"
  | .bool true => "True"
  | .bool false => "False"
  | .num n => toString n
  | .str s => "'" ++ s ++ "'"
  | .arr xs => "[" ++ pyReprList xs ++ "]"
  | .obj fs => "\x7b" ++ pyReprFields fs ++ "\x7d"
  | .hdrs h => "\x7b" ++ pyReprHeaders h ++ "\x7d"

/-- Comma-separated reprs of list elements. -/
def pyReprList : List Json → String
  | [] => ""
  | [x] => pyRepr x
  | x :: xs => pyRepr x ++ ", " ++ pyReprList xs

/-- Comma-separated reprs of dict entries. -/
def pyReprFields : List (String × Json) → String
  | [] => ""
  | [(k, v)] => "'" ++ k ++ "': " ++ pyRepr v
  | (k, v) :: fs => "'" ++ k ++ "': " ++ pyRepr v ++ ", " ++ pyReprFields fs

/-- Comma-separated reprs of header entries. -/
def pyReprHeaders : List (String × String) → String
  | [] => ""
  | [(k, v)] => "'" ++ k ++ "': '" ++ v ++ "'"
  | (k, v) :: h => "'" ++ k ++ "': '" ++ v ++ "', " ++ pyReprHeaders h

end

/-- Python str() as used implicitly by f-strings and explicitly at line 79
of main.py: the identity on strings, repr-like on other values. -/
def pyStr (j : Json) : String :=
  match j with
  | .str s => s
  | _ => pyRepr j

/-- Python membership `x in lst` for a string x and a decoded-JSON list:
equality with each element; a str compares equal only to a str. -/
def pyStrInList (x : String) : List Json → Bool
  | [] => false
  | .str s :: rest => s == x || pyStrInList x rest
  | _ :: rest => pyStrInList x rest

/-- Substring test on character lists (Python `sub in s` for strings). -/
def charsInfix (needle : List Char) : List Char → Bool
  | [] => needle.isEmpty
  | c :: rest => needle.isPrefixOf (c :: rest) || charsInfix needle rest

/-- Python membership `k in j` for a string k against whatever object j
is: key membership for dicts, element membership for lists, substring for
strings, case-insensitive key membership for the headers object;
TypeError on non-container scalars. -/
def pyIn (k : String) : Json → PyResult Bool
  | .obj fs => .ok (hasKey fs k)
  | .arr xs => .ok (pyStrInList k xs)
  | .str s => .ok (charsInfix k.toList s.toList)
  | .hdrs h => .ok (h.any (fun p => headerKeyEq p.1 k))
  | _ => .exc .typeError

/-- Python item access `j[k]` with a string key: KeyError on a dict
without the key, the header value (a str) on the headers object,
TypeError on anything unsubscriptable by a string. -/
def pyGetItem (j : Json) (k : String) : PyResult Json :=
  match j with
  | .obj fs =>
    match getKey fs k with
    | some v => .ok v
    | none => .exc .keyError
  | .hdrs h =>
    match headerLookup h k with
    | some v => .ok (.str v)
    | none => .exc .keyError
  | _ => .exc .typeError

/-- One HTTP response as seen after the transport: status code, decoded
JSON body (none when response.text does not decode), and response
headers. -/
structure Response where
  status : Nat
  body : Option Json
  headers : List (String × String)

/-- Outcome of requests.get on one URL: a response, or a
requests.exceptions.RequestException. -/
inductive FetchOutcome where
  | response (r : Response)
  | transportError

/-- Embedding of RepoTagInfo.get_json_from_url (main.py lines 96-116).
The outcome parameter is what the network returns for the requested URL.
On a 200 response the decoded body is returned; when with_res_headers is
set, the response headers are stored under key headers first, which
raises TypeError when the decoded body is not a dict (line 104, inside a
try that catches only JSONDecodeError).  Every failure branch (decode
error, 404, 401, other status, transport error) logs and falls through to
`return \x7b\x7d`. -/
def get_json_from_url (outcome : FetchOutcome) (with_res_headers : Bool) :
    PyResult Json :=
  match outcome with
  | .transportError => .ok (.obj [])
  | .response r =>
    if r.status = 200 then
      match r.body with
      | some j =>
        if with_res_headers then
          match j with
          | .obj fs => .ok (.obj (setKey fs "headers" (.hdrs r.headers)))
          | _ => .exc .typeError
        else .ok j
      | none => .ok (.obj [])
    else .ok (.obj [])

/-- AUTH_URL constant of main.py line 6. -/
def AUTH_URL : String :=
  "https://auth.docker.io/token?service=registry.docker.io&scope=repository"

/-- REG_V2_URL constant of main.py line 7. -/
def REG_V2_URL : String := "https://registry.hub.docker.com/v2/"

/-- TAGS_V2_URI constant of main.py line 8. -/
def TAGS_V2_URI : String := "/tags/list"

/-- MANIFESTS_V2_URI constant of main.py line 9. -/
def MANIFESTS_V2_URI : String := "/manifests/"

/-- The auth URL built at line 49. -/
def auth_url (repo_name : String) : String :=
  AUTH_URL ++ ":" ++ repo_name ++ ":pull"

/-- The tag-list URL built at line 61. -/
def tags_url (repo_name : String) : String :=
  REG_V2_URL ++ repo_name ++ TAGS_V2_URI

/-- The manifest URL built at line 82 (the tag goes through str() by the
f-string). -/
def manifest_url (repo_name tag : String) : String :=
  REG_V2_URL ++ repo_name ++ MANIFESTS_V2_URI ++ tag

/-- Outcome of RepoTagInfo.get_token: the token value returned, exit(1),
or an uncaught exception. -/
inductive TokenResult where
  | token (t : Json)
  | fatal
  | raised (e : PyExc)

/-- Embedding of RepoTagInfo.get_token (lines 47-56).  The outcome
parameter is the network result for the auth URL.  Returns the token
field when the decoded body is truthy and has one; otherwise logs and
exits with status 1.  The `and` of line 52 short-circuits, so membership
is only tested on a truthy body. -/
def get_token (outcome : FetchOutcome) : TokenResult :=
  match get_json_from_url outcome false with
  | .exc e => .raised e
  | .ok r =>
    if r.truthy then
      match pyIn "token" r with
      | .exc e => .raised e
      | .ok b =>
        if b then
          match pyGetItem r "token" with
          | .ok v => .token v
          | .exc e => .raised e
        else .fatal
    else .fatal

/-- Python list slicing `xs[:n]` with an arbitrary integer n: the first n
elements for nonnegative n, everything but the last |n| for negative n
(clamped at the ends). -/
def pySliceTo (xs : List Json) (n : Int) : List Json :=
  if 0 ≤ n then xs.take n.toNat
  else xs.take (xs.length - (-n).toNat)

/-- Outcome of RepoTagInfo.get_and_print_tags: the stored tag list plus
the two logged values (total count, shown slice), exit(1), or an uncaught
exception. -/
inductive TagsResult where
  | ok (tags : List Json) (count : Nat) (shown : List Json)
  | fatal
  | raised (e : PyExc)

/-- Embedding of RepoTagInfo.get_and_print_tags (lines 58-71).  The
outcome parameter is the network result for the tag-list URL.  On a
truthy decoded body containing a tags field, stores that field as
repo_tags and logs its length and its print-limit slice; otherwise logs
and exits with status 1.  A tags value that is not a list would make
len() or the slice of lines 66-68 raise; this is modelled as TypeError
(a str value would partially work in Python, but no claim involves one). -/
def get_and_print_tags (outcome : FetchOutcome) (print_limit : Int) :
    TagsResult :=
  match get_json_from_url outcome false with
  | .exc e => .raised e
  | .ok r =>
    if r.truthy then
      match pyIn "tags" r with
      | .exc e => .raised e
      | .ok b =>
        if b then
          match pyGetItem r "tags" with
          | .ok (.arr tags) => .ok tags tags.length (pySliceTo tags print_limit)
          | .ok _ => .raised .typeError
          | .exc e => .raised e
        else .fatal
    else .fatal

/-- The signature-tag name derived at lines 90-91:
`digest.strip('sha256:')` (a character-set strip, see pyStrip) wrapped as
`sha256-...sig`. -/
def derive_sig_tag (digest : String) : String :=
  "sha256-" ++ pyStrip digest "sha256:" ++ ".sig"

/-- What section 4.4 of the spec describes.  Modelled from the spec: the
spec says the literal `sha256:` marker at the front of the digest is
stripped and the hex part is kept intact, giving `sha256-<hex>.sig`. -/
def derive_sig_tag_spec (digest : String) : String :=
  "sha256-" ++
    (if strStartsWith digest "sha256:" then String.mk (digest.toList.drop 7)
     else digest) ++
    ".sig"

/-- Embedding of RepoTagInfo.is_signed_artifact (lines 88-94), acting on
the manifest-result value and the stored repo_tags list.  Returns the
manifest result after the mutation of line 94 (headers deleted only
inside the `if digest header present` block) together with whether the
Signed! record was logged.  Accessing r_tag_manifest of a shape other
than a dict whose headers entry is the response-headers object raises;
every call from the manifest loop passes a dict with such an entry. -/
def is_signed_artifact (repo_tags : List Json) (r_tag_manifest : Json) :
    PyResult (Json × Bool) :=
  match r_tag_manifest with
  | .obj fields =>
    match getKey fields "headers" with
    | some (.hdrs h) =>
      match headerLookup h "docker-content-digest" with
      | some d =>
        let image_digest := derive_sig_tag d
        .ok (.obj (delKey fields "headers"), pyStrInList image_digest repo_tags)
      | none => .ok (.obj fields, false)
    | some _ => .exc .typeError
    | none => .exc .keyError
  | _ => .exc .typeError

/-- One completed iteration of the manifest loop for a non-skipped tag:
the tag, the manifest result logged at line 86 (after the possible
headers deletion), and whether the Signed! record was logged for it. -/
structure TagEvent where
  tag : Json
  result : Json
  signedLogged : Bool

/-- Outcome of the manifest loop: the URLs passed to requests.get in
order, the completed per-tag iterations in order, and the uncaught
exception that aborted the loop, if any. -/
structure LoopResult where
  requests : List String
  events : List TagEvent
  exc : Option PyExc

/-- The for-loop of get_and_print_manifests (lines 78-86), iterating over
the remaining tags while membership in is_signed_artifact is tested
against the full repo_tags list.  A tag that starts with `sha256-` and
ends with `.sig` is skipped without a request (lines 79-81); otherwise
the manifest URL is requested, is_signed_artifact runs on a truthy
result, and the (possibly mutated) result is logged.  An uncaught
exception aborts the loop; the request that triggered it has already
been issued. -/
def manifest_loop_go (repo_name : String) (repo_tags : List Json)
    (net : String → FetchOutcome) : List Json → LoopResult
  | [] => ⟨[], [], none⟩
  | t :: rest =>
    let ts := pyStr t
    if strStartsWith ts "sha256-" && strEndsWith ts ".sig" then
      manifest_loop_go repo_name repo_tags net rest
    else
      let url := manifest_url repo_name ts
      match get_json_from_url (net url) true with
      | .exc e => ⟨[url], [], some e⟩
      | .ok j =>
        if j.truthy then
          match is_signed_artifact repo_tags j with
          | .exc e => ⟨[url], [], some e⟩
          | .ok (j2, signed) =>
            let r := manifest_loop_go repo_name repo_tags net rest
            ⟨url :: r.requests, ⟨t, j2, signed⟩ :: r.events, r.exc⟩
        else
          let r := manifest_loop_go repo_name repo_tags net rest
          ⟨url :: r.requests, ⟨t, j, false⟩ :: r.events, r.exc⟩

/-- Embedding of RepoTagInfo.get_and_print_manifests (lines 73-86): run
the loop over the stored repo_tags.  The net parameter gives the network
outcome for each requested URL (the Authorization and Accept request
headers of lines 74-77 are fixed and are part of what net abstracts). -/
def get_and_print_manifests (repo_name : String) (repo_tags : List Json)
    (net : String → FetchOutcome) : LoopResult :=
  manifest_loop_go repo_name repo_tags net repo_tags

/-- The network environment of one run: outcomes for the auth request,
the tag-list request, and each manifest URL. -/
structure World where
  auth : FetchOutcome
  tagList : FetchOutcome
  manifests : String → FetchOutcome

/-- Observable outcome of one whole run: every URL passed to
requests.get in order, the exit code when exit(1) ran, the uncaught
exception when one escaped, the logged tag summary (count, shown slice)
when tag listing succeeded, and the per-tag manifest events. -/
structure RunResult where
  requests : List String
  exitCode : Option Nat
  exc : Option PyExc
  tagsLog : Option (Nat × List Json)
  events : List TagEvent

/-- Embedding of the main block (lines 119-124) plus RepoTagInfo.__init__
(lines 41-45): get_token runs during construction, then
get_and_print_tags, then get_and_print_manifests; each of get_token and
get_and_print_tags exits the process with status 1 on failure, so later
requests are not issued. -/
def run (repo_name : String) (print_limit : Int) (w : World) : RunResult :=
  match get_token w.auth with
  | .fatal => ⟨[auth_url repo_name], some 1, none, none, []⟩
  | .raised e => ⟨[auth_url repo_name], none, some e, none, []⟩
  | .token _ =>
    match get_and_print_tags w.tagList print_limit with
    | .fatal => ⟨[auth_url repo_name, tags_url repo_name], some 1, none, none, []⟩
    | .raised e => ⟨[auth_url repo_name, tags_url repo_name], none, some e, none, []⟩
    | .ok tags count shown =>
      let lr := get_and_print_manifests repo_name tags w.manifests
      ⟨[auth_url repo_name, tags_url repo_name] ++ lr.requests, none, lr.exc,
        some (count, shown), lr.events⟩

/-- A lowercase hexadecimal digit. -/
def isHexChar (c : Char) : Bool :=
  ('0' ≤ c && c ≤ '9') || ('a' ≤ c && c ≤ 'f')

/-- A tag of the form `sha256-` followed by a nonempty hex string followed
by `.sig` (the cosign signature-tag shape the claims quantify over). -/
def isSigTagPattern (s : String) : Bool :=
  (strStartsWith s "sha256-" && strEndsWith s ".sig") &&
  (decide (11 < s.toList.length) &&
    ((s.toList.drop 7).take (s.toList.length - 11)).all isHexChar)

/-- A network outcome that the per-tag error handling of
get_json_from_url turns into the empty dict: a transport error, a
non-200 status, or a body that does not decode as JSON. -/
def perTagFailure : FetchOutcome → Bool
  | .transportError => true
  | .response r => !(r.status == 200) || r.body.isNone

/-- A network outcome for the auth request that lacks a token: a
transport error, an undecodable body, or a decoded JSON object without a
token field (non-object bodies are outside the claims). -/
def authLacksToken : FetchOutcome → Bool
  | .transportError => true
  | .response r =>
    match r.body with
    | some (.obj fs) => !(hasKey fs "token")
    | some _ => false
    | none => true

/-- A tag-list response that claim C7 calls fatal: a non-200 status, or a
decoded JSON object without a tags field. -/
def tagListFatal : FetchOutcome → Bool
  | .transportError => false
  | .response r =>
    !(r.status == 200) ||
    (match r.body with
     | some (.obj fs) => !(hasKey fs "tags")
     | _ => false)

theorem string_append_cancel_left (a : String) {s t : String}
    (h : a ++ s = a ++ t) : s = t := by
  have hd := congrArg String.data h
  simp only [String.data_append] at hd
  have h2 : s.data = t.data := List.append_cancel_left hd
  cases s with
  | mk d1 => cases t with
  | mk d2 => simp only at h2; rw [h2]

theorem manifest_url_inj (repo_name : String) {s t : String}
    (h : manifest_url repo_name s = manifest_url repo_name t) : s = t := by
  apply string_append_cancel_left (REG_V2_URL ++ repo_name ++ MANIFESTS_V2_URI)
  simpa [manifest_url, String.append_assoc] using h

theorem hasKey_of_getKey {fs : List (String × Json)} {k : String} {v : Json}
    (h : getKey fs k = some v) : hasKey fs k = true := by
  induction fs with
  | nil => simp [getKey] at h
  | cons p rest ih =>
    obtain ⟨k2, v2⟩ := p
    rw [getKey] at h
    rw [hasKey]
    by_cases hk : (k2 == k) = true
    · simp [hk]
    · rw [if_neg hk] at h
      simp only [Bool.or_eq_true]
      exact Or.inr (ih h)

theorem delKey_getKey_ne {fs : List (String × Json)} {k k2 : String}
    (h : ¬(k2 = k)) : getKey (delKey fs k) k2 = getKey fs k2 := by
  induction fs with
  | nil => rfl
  | cons p rest ih =>
    obtain ⟨ka, va⟩ := p
    rw [delKey]
    by_cases hk : (ka == k) = true
    · have hka : ka = k := beq_iff_eq.mp hk
      have hne : (ka == k2) = false := by
        apply beq_eq_false_iff_ne.mpr
        intro he
        exact h (by rw [← he, hka])
      rw [if_pos hk, getKey, hne]
      simpa using ih
    · rw [if_neg hk, getKey, getKey]
      by_cases hg : (ka == k2) = true
      · simp [hg]
      · simp only [Bool.not_eq_true] at hg
        rw [hg]
        simpa using ih

theorem get_json_empty_of_failure (o : FetchOutcome) (b : Bool)
    (h : perTagFailure o = true) : get_json_from_url o b = .ok (.obj []) := by
  cases o with
  | transportError => rfl
  | response r =>
    obtain ⟨st, body, hd⟩ := r
    simp only [perTagFailure, Bool.or_eq_true, Bool.not_eq_true', beq_eq_false_iff_ne,
      ne_eq, Option.isNone_iff_eq_none] at h
    rcases h with h | h
    · simp [get_json_from_url, h]
    · subst h
      by_cases hs : st = 200 <;> simp [get_json_from_url, hs]

theorem loop_requests_from_tags (repo_name : String) (rt : List Json)
    (net : String → FetchOutcome) :
    ∀ (l : List Json) (u : String), u ∈ (manifest_loop_go repo_name rt net l).requests →
      ∃ t, u = manifest_url repo_name (pyStr t) ∧
        (strStartsWith (pyStr t) "sha256-" && strEndsWith (pyStr t) ".sig") = false := by
  intro l
  induction l with
  | nil => intro u hu; simp [manifest_loop_go] at hu
  | cons t rest ih =>
    intro u hu
    by_cases hskip : (strStartsWith (pyStr t) "sha256-" && strEndsWith (pyStr t) ".sig") = true
    · rw [manifest_loop_go] at hu
      simp only [hskip, if_pos] at hu
      exact ih u hu
    · have hsf : (strStartsWith (pyStr t) "sha256-" && strEndsWith (pyStr t) ".sig") = false :=
        Bool.not_eq_true _ ▸ (by simpa using hskip)
      rw [manifest_loop_go] at hu
      simp only [hsf, Bool.false_eq_true, if_false] at hu
      cases hg : get_json_from_url (net (manifest_url repo_name (pyStr t))) true with
      | exc e =>
        rw [hg] at hu
        simp only [LoopResult.requests, List.mem_singleton] at hu
        exact ⟨t, hu, hsf⟩
      | ok j =>
        rw [hg] at hu
        by_cases ht : j.truthy = true
        · simp only [ht, if_pos] at hu
          cases hs : is_signed_artifact rt j with
          | exc e =>
            rw [hs] at hu
            simp only [LoopResult.requests, List.mem_singleton] at hu
            exact ⟨t, hu, hsf⟩
          | ok p =>
            rw [hs] at hu
            obtain ⟨j2, signed⟩ := p
            simp only [LoopResult.requests, List.mem_cons] at hu
            rcases hu with hu | hu
            · exact ⟨t, hu, hsf⟩
            · exact ih u hu
        · simp only [Bool.not_eq_true] at ht
          simp only [ht, Bool.false_eq_true, if_false, LoopResult.requests,
            List.mem_cons] at hu
          rcases hu with hu | hu
          · exact ⟨t, hu, hsf⟩
          · exact ih u hu

theorem get_token_fatal_of_lacking (o : FetchOutcome)
    (h : authLacksToken o = true) : get_token o = .fatal := by
  cases o with
  | transportError => rfl
  | response r =>
    obtain ⟨st, body, hd⟩ := r
    by_cases hs : st = 200
    · subst hs
      cases body with
      | none => rfl
      | some j =>
        cases j with
        | obj fs =>
          simp only [authLacksToken, Bool.not_eq_true', beq_eq_false_iff_ne] at h
          have hk : hasKey fs "token" = false := by
            simpa using h
          cases fs with
          | nil => rfl
          | cons p ps =>
            simp [get_token, get_json_from_url, Json.truthy, pyIn, hk]
        | null => simp [authLacksToken] at h
        | bool b => simp [authLacksToken] at h
        | num n => simp [authLacksToken] at h
        | str s => simp [authLacksToken] at h
        | arr xs => simp [authLacksToken] at h
        | hdrs hh => simp [authLacksToken] at h
    · simp [get_token, get_json_from_url, hs, Json.truthy]

theorem get_and_print_tags_fatal (o : FetchOutcome) (print_limit : Int)
    (h : tagListFatal o = true) : get_and_print_tags o print_limit = .fatal := by
  cases o with
  | transportError => simp [tagListFatal] at h
  | response r =>
    obtain ⟨st, body, hd⟩ := r
    by_cases hs : st = 200
    · subst hs
      simp only [tagListFatal, Bool.or_eq_true, Bool.not_eq_true', beq_eq_false_iff_ne,
        ne_eq] at h
      rcases h with h | h
      · exact absurd trivial h
      · cases body with
        | none => simp at h
        | some j =>
          cases j with
          | obj fs =>
            have hk : hasKey fs "tags" = false := by simpa using h
            cases fs with
            | nil => rfl
            | cons p ps =>
              simp [get_and_print_tags, get_json_from_url, Json.truthy, pyIn, hk]
          | null => simp at h
          | bool b => simp at h
          | num n => simp at h
          | str s => simp at h
          | arr xs => simp at h
          | hdrs hh => simp at h
    · simp [get_and_print_tags, get_json_from_url, hs, Json.truthy]

/-- C1: the claim says every digest sha256:<X> maps to signature tag
sha256-<X>.sig with the hex part intact.  The code applies str.strip,
which removes characters of the set of `sha256:` from both ends rather
than the literal leading marker: at digest sha256:abc123 it derives
sha256-bc123.sig, while the removal the spec describes gives
sha256-abc123.sig. -/
theorem derive_sig_tag_strip_bug :
    derive_sig_tag "sha256:abc123" = "sha256-bc123.sig" ∧
    derive_sig_tag_spec "sha256:abc123" = "sha256-abc123.sig" := ⟨rfl, rfl⟩

/-- C2: at the exact input of the claim (digest header sha256:abc123, tag
list containing sha256-abc123.sig) the code reports not signed, because
the tag it derives is sha256-bc123.sig; the claim says signed would be
reported. -/
theorem is_signed_artifact_misses_spec_example :
    is_signed_artifact [Json.str "sha256-abc123.sig"]
      (Json.obj [("body", Json.null),
        ("headers", Json.hdrs [("docker-content-digest", "sha256:abc123")])]) =
      .ok (Json.obj [("body", Json.null)], false) := rfl

/-- C3 counterexample: a non-empty manifest result whose attached headers
carry no docker-content-digest entry is returned with the headers field
still present, so headers are NOT removed regardless of whether the
digest header is present (the del of line 94 sits inside the if of line
89). -/
theorem is_signed_artifact_keeps_headers_without_digest :
    is_signed_artifact []
      (Json.obj [("a", Json.num 1),
        ("headers", Json.hdrs [("content-type", "application/json")])]) =
      .ok (Json.obj [("a", Json.num 1),
        ("headers", Json.hdrs [("content-type", "application/json")])], false) := rfl

/-- C3 amended: for every manifest result with attached response headers,
the headers field is removed exactly when a docker-content-digest header
is present (then removal happens regardless of the signature outcome,
leaving the other fields unchanged, since delKey only drops the headers
entries); when the digest header is absent, the manifest result is
returned unchanged, headers field included. -/
theorem is_signed_artifact_headers_behavior (repo_tags : List Json)
    (fields : List (String × Json)) (h : List (String × String))
    (hh : getKey fields "headers" = some (Json.hdrs h)) :
    is_signed_artifact repo_tags (Json.obj fields) =
      match headerLookup h "docker-content-digest" with
      | some d => .ok (.obj (delKey fields "headers"),
          pyStrInList (derive_sig_tag d) repo_tags)
      | none => .ok (.obj fields, false) := by
  cases hl : headerLookup h "docker-content-digest" <;>
    simp [is_signed_artifact, hh, hl]

/-- C3 witness: a manifest result carrying a Docker-Content-Digest header
(found case-insensitively) has its headers field removed and the derived
signature tag membership reported. -/
theorem is_signed_artifact_headers_behavior_witness :
    getKey [("schemaVersion", Json.num 2),
        ("headers", Json.hdrs [("Docker-Content-Digest", "sha256:bcdf")])]
      "headers" = some (Json.hdrs [("Docker-Content-Digest", "sha256:bcdf")]) ∧
    is_signed_artifact [Json.str "sha256-bcdf.sig"]
      (Json.obj [("schemaVersion", Json.num 2),
        ("headers", Json.hdrs [("Docker-Content-Digest", "sha256:bcdf")])]) =
      .ok (.obj [("schemaVersion", Json.num 2)], true) :=
  ⟨rfl, is_signed_artifact_headers_behavior [Json.str "sha256-bcdf.sig"]
    [("schemaVersion", Json.num 2),
      ("headers", Json.hdrs [("Docker-Content-Digest", "sha256:bcdf")])]
    [("Docker-Content-Digest", "sha256:bcdf")] rfl⟩

/-- C4: no URL derived from a tag of shape sha256-<hex>.sig is ever
requested by the manifest loop: every requested URL comes from a tag
whose string form fails the skip test of line 79, and a sig-shaped
string passes it. -/
theorem sig_tags_never_requested (repo_name : String) (repo_tags : List Json)
    (net : String → FetchOutcome) (s : String) (hs : isSigTagPattern s = true) :
    manifest_url repo_name s ∉
      (get_and_print_manifests repo_name repo_tags net).requests := by
  intro hmem
  obtain ⟨t, hu, hskip⟩ :=
    loop_requests_from_tags repo_name repo_tags net repo_tags _ hmem
  have hst : s = pyStr t := manifest_url_inj repo_name hu
  have h1 : (strStartsWith s "sha256-" && strEndsWith s ".sig") = true := by
    simp only [isSigTagPattern, Bool.and_eq_true] at hs
    simp [hs.1.1, hs.1.2]
  rw [hst] at h1
  rw [h1] at hskip
  simp at hskip

/-- C4 witness: the sig-shaped tag of a concrete two-tag list is never
requested. -/
theorem sig_tags_never_requested_witness :
    isSigTagPattern "sha256-abc123.sig" = true ∧
    manifest_url "r" "sha256-abc123.sig" ∉
      (get_and_print_manifests "r"
        [Json.str "sha256-abc123.sig", Json.str "latest"]
        (fun _ => FetchOutcome.transportError)).requests :=
  ⟨rfl, sig_tags_never_requested "r"
    [Json.str "sha256-abc123.sig", Json.str "latest"]
    (fun _ => FetchOutcome.transportError) "sha256-abc123.sig" rfl⟩

/-- C5: when the manifest request for a non-signature tag fails in a way
the per-tag handling covers (transport error, non-200 status, or decode
error), the loop records the empty dict as that tag result and proceeds
to process the remaining tags exactly as it otherwise would. -/
theorem per_tag_failure_nonfatal (repo_name : String) (repo_tags : List Json)
    (net : String → FetchOutcome) (t : Json) (rest : List Json)
    (hskip : (strStartsWith (pyStr t) "sha256-" &&
      strEndsWith (pyStr t) ".sig") = false)
    (hfail : perTagFailure (net (manifest_url repo_name (pyStr t))) = true) :
    manifest_loop_go repo_name repo_tags net (t :: rest) =
      ⟨manifest_url repo_name (pyStr t) ::
          (manifest_loop_go repo_name repo_tags net rest).requests,
        ⟨t, Json.obj [], false⟩ ::
          (manifest_loop_go repo_name repo_tags net rest).events,
        (manifest_loop_go repo_name repo_tags net rest).exc⟩ := by
  have hg := get_json_empty_of_failure _ true hfail
  rw [manifest_loop_go]
  simp only [hskip, Bool.false_eq_true, if_false, hg, Json.truthy, List.isEmpty_nil,
    Bool.not_true]

/-- C5 witness: with every manifest request answered 401, the first of
two plain tags yields the empty result and the second is still
processed. -/
theorem per_tag_failure_nonfatal_witness :
    (strStartsWith (pyStr (Json.str "a")) "sha256-" &&
      strEndsWith (pyStr (Json.str "a")) ".sig") = false ∧
    perTagFailure ((fun _ => FetchOutcome.response ⟨401, none, []⟩)
      (manifest_url "r" (pyStr (Json.str "a")))) = true ∧
    manifest_loop_go "r" [Json.str "a", Json.str "b"]
        (fun _ => FetchOutcome.response ⟨401, none, []⟩)
        (Json.str "a" :: [Json.str "b"]) =
      ⟨manifest_url "r" (pyStr (Json.str "a")) ::
          (manifest_loop_go "r" [Json.str "a", Json.str "b"]
            (fun _ => FetchOutcome.response ⟨401, none, []⟩) [Json.str "b"]).requests,
        ⟨Json.str "a", Json.obj [], false⟩ ::
          (manifest_loop_go "r" [Json.str "a", Json.str "b"]
            (fun _ => FetchOutcome.response ⟨401, none, []⟩) [Json.str "b"]).events,
        (manifest_loop_go "r" [Json.str "a", Json.str "b"]
          (fun _ => FetchOutcome.response ⟨401, none, []⟩) [Json.str "b"]).exc⟩ :=
  ⟨rfl, rfl, per_tag_failure_nonfatal "r" [Json.str "a", Json.str "b"]
    (fun _ => FetchOutcome.response ⟨401, none, []⟩) (Json.str "a") [Json.str "b"]
    rfl rfl⟩

/-- C6: when the auth response lacks a token field (including transport
failure and undecodable bodies), the run exits with status 1 after the
single auth request: no tag-list and no manifest request is issued. -/
theorem auth_failure_stops_run (repo_name : String) (print_limit : Int)
    (w : World) (h : authLacksToken w.auth = true) :
    run repo_name print_limit w =
      ⟨[auth_url repo_name], some 1, none, none, []⟩ := by
  have hf : get_token w.auth = .fatal := get_token_fatal_of_lacking w.auth h
  unfold run
  rw [hf]

/-- C6 witness: an auth response whose JSON object carries no token field
makes the whole run exit 1 with only the auth URL requested. -/
theorem auth_failure_stops_run_witness :
    authLacksToken (FetchOutcome.response
      ⟨200, some (Json.obj [("error", Json.str "denied")]), []⟩) = true ∧
    run "library/ubuntu" 10
      ⟨FetchOutcome.response
          ⟨200, some (Json.obj [("error", Json.str "denied")]), []⟩,
        FetchOutcome.transportError, fun _ => FetchOutcome.transportError⟩ =
      ⟨[auth_url "library/ubuntu"], some 1, none, none, []⟩ :=
  ⟨rfl, auth_failure_stops_run "library/ubuntu" 10
    ⟨FetchOutcome.response
        ⟨200, some (Json.obj [("error", Json.str "denied")]), []⟩,
      FetchOutcome.transportError, fun _ => FetchOutcome.transportError⟩ rfl⟩

/-- C7: when the run reaches tag listing and the tag-list response has a
non-200 status or its JSON object lacks a tags field, the run exits with
status 1 having requested only the auth and tag-list URLs: no manifest
request occurs. -/
theorem tag_list_failure_stops_run (repo_name : String) (print_limit : Int)
    (w : World) (tok : Json) (hauth : get_token w.auth = .token tok)
    (hfatal : tagListFatal w.tagList = true) :
    run repo_name print_limit w =
      ⟨[auth_url repo_name, tags_url repo_name], some 1, none, none, []⟩ := by
  have ht := get_and_print_tags_fatal w.tagList print_limit hfatal
  unfold run
  rw [hauth, ht]

/-- C7 witness: a 404 tag-list response after a successful token stops
the run with exactly two requests issued. -/
theorem tag_list_failure_stops_run_witness :
    get_token (FetchOutcome.response
      ⟨200, some (Json.obj [("token", Json.str "t")]), []⟩) =
      .token (Json.str "t") ∧
    tagListFatal (FetchOutcome.response ⟨404, some (Json.obj []), []⟩) = true ∧
    run "library/ubuntu" 10
      ⟨FetchOutcome.response
          ⟨200, some (Json.obj [("token", Json.str "t")]), []⟩,
        FetchOutcome.response ⟨404, some (Json.obj []), []⟩,
        fun _ => FetchOutcome.transportError⟩ =
      ⟨[auth_url "library/ubuntu", tags_url "library/ubuntu"],
        some 1, none, none, []⟩ :=
  ⟨rfl, rfl, tag_list_failure_stops_run "library/ubuntu" 10
    ⟨FetchOutcome.response
        ⟨200, some (Json.obj [("token", Json.str "t")]), []⟩,
      FetchOutcome.response ⟨404, some (Json.obj []), []⟩,
      fun _ => FetchOutcome.transportError⟩ (Json.str "t") rfl rfl⟩

/-- C8: on a successful tag-list response whose decoded object holds a
tags array, the stored tag list is exactly that array (same elements,
same order, no sorting), and the logged summary is the total length
together with the first print-limit tags; the first-N reading applies to
a nonnegative configured limit (the argparse default is 10). -/
theorem tags_stored_exactly_and_logged (hd : List (String × String))
    (fs : List (String × Json)) (xs : List Json) (print_limit : Int)
    (hl : 0 ≤ print_limit)
    (htags : getKey fs "tags" = some (Json.arr xs)) :
    get_and_print_tags
        (.response ⟨200, some (Json.obj fs), hd⟩) print_limit =
      .ok xs xs.length (xs.take print_limit.toNat) := by
  have hk : hasKey fs "tags" = true := hasKey_of_getKey htags
  cases fs with
  | nil => simp [getKey] at htags
  | cons p ps =>
    simp [get_and_print_tags, get_json_from_url, Json.truthy, pyIn, hk,
      pyGetItem, htags, pySliceTo, hl]

/-- C8 witness: a two-tag response with the default limit 10 stores both
tags in order and logs count 2 with both tags shown. -/
theorem tags_stored_exactly_and_logged_witness :
    (0 : Int) ≤ 10 ∧
    getKey [("tags", Json.arr [Json.str "b", Json.str "a"])] "tags" =
      some (Json.arr [Json.str "b", Json.str "a"]) ∧
    get_and_print_tags
        (.response ⟨200,
          some (Json.obj [("tags", Json.arr [Json.str "b", Json.str "a"])]),
          []⟩) 10 =
      .ok [Json.str "b", Json.str "a"] 2 [Json.str "b", Json.str "a"] :=
  ⟨by decide, rfl, tags_stored_exactly_and_logged []
    [("tags", Json.arr [Json.str "b", Json.str "a"])]
    [Json.str "b", Json.str "a"] 10 (by decide) rfl⟩

/-- C9: a manifest fetch answered 200 with a body that decodes to
valid JSON which is not an object (here an array) makes the headers
attachment of line 104 raise TypeError, which nothing catches: the run
aborts with the exception, the failing tag yields no logged result, and
the remaining tag is never requested. -/
theorem nonobject_manifest_body_crashes_run :
    run "library/ubuntu" 10
      ⟨FetchOutcome.response
          ⟨200, some (Json.obj [("token", Json.str "t")]), []⟩,
        FetchOutcome.response
          ⟨200, some (Json.obj
            [("tags", Json.arr [Json.str "good", Json.str "bad"])]), []⟩,
        fun _ => FetchOutcome.response ⟨200, some (Json.arr []), []⟩⟩ =
      ⟨[auth_url "library/ubuntu", tags_url "library/ubuntu",
          manifest_url "library/ubuntu" "good"],
        none, some PyExc.typeError,
        some (2, [Json.str "good", Json.str "bad"]), []⟩ := rfl

/-- C10: the CLI limit is an arbitrary integer (argparse applies no
validation and the model is total in it); with a negative limit the
shown slice is everything except the last limit-magnitude tags, the
Python negative-slice meaning rather than a first-N count, and with
limit 0 the shown slice is empty. -/
theorem negative_limit_slice_semantics (hd : List (String × String))
    (fs : List (String × Json)) (xs : List Json) (print_limit : Int)
    (htags : getKey fs "tags" = some (Json.arr xs)) :
    (print_limit < 0 →
      get_and_print_tags
          (.response ⟨200, some (Json.obj fs), hd⟩) print_limit =
        .ok xs xs.length (xs.take (xs.length - (-print_limit).toNat))) ∧
    get_and_print_tags (.response ⟨200, some (Json.obj fs), hd⟩) 0 =
      .ok xs xs.length [] := by
  have hk : hasKey fs "tags" = true := hasKey_of_getKey htags
  cases fs with
  | nil => simp [getKey] at htags
  | cons p ps =>
    constructor
    · intro hneg
      have hnl : ¬(0 ≤ print_limit) := by omega
      simp [get_and_print_tags, get_json_from_url, Json.truthy, pyIn, hk,
        pyGetItem, htags, pySliceTo, hnl]
    · simp [get_and_print_tags, get_json_from_url, Json.truthy, pyIn, hk,
        pyGetItem, htags, pySliceTo]

/-- C10 witness: limit -2 on a three-tag list shows all but the last two
tags, and limit 0 shows none. -/
theorem negative_limit_slice_semantics_witness :
    getKey [("tags", Json.arr [Json.str "a", Json.str "b", Json.str "c"])]
      "tags" = some (Json.arr [Json.str "a", Json.str "b", Json.str "c"]) ∧
    (((-2 : Int) < 0 →
      get_and_print_tags
          (.response ⟨200,
            some (Json.obj
              [("tags", Json.arr [Json.str "a", Json.str "b", Json.str "c"])]),
            []⟩) (-2) =
        .ok [Json.str "a", Json.str "b", Json.str "c"] 3 [Json.str "a"]) ∧
      get_and_print_tags
          (.response ⟨200,
            some (Json.obj
              [("tags", Json.arr [Json.str "a", Json.str "b", Json.str "c"])]),
            []⟩) 0 =
        .ok [Json.str "a", Json.str "b", Json.str "c"] 3 []) :=
  ⟨rfl, negative_limit_slice_semantics []
    [("tags", Json.arr [Json.str "a", Json.str "b", Json.str "c"])]
    [Json.str "a", Json.str "b", Json.str "c"] (-2) rfl⟩
